import Mathlib

/-!
Verification development for the geodata-br territorial data exporter.

The definitions below are a shallow embedding of the repository's Python
sources:

* `src/export.py` — the `Database` data holder and the `DTB.export_db`
  driver (its control flow is embedded as an event trace);
* `src/exporters.py` — the `BaseExporter.__toDict__` nested-map builder and
  the `CSV`, `SQL` and `XML` exporters (Python 2 semantics: `re` patterns
  use ASCII `\w`/`\s`, `str.format` substitutes `\x7bname\x7d` templates);
* `src/lib/geodatabr/dataset/serializers.py` — the flattened serializer's
  sort and the memoized `serialize` methods.

Python strings are modelled as Lean `String`/`List Char`; Python ints as
`Int`; absent values (`None`) as an explicit constructor.  Mutable
class-level storage (`Database._cols` …) is modelled with an explicit heap
of reference cells mirroring Python attribute lookup.
-/

/-- A Python value as it occurs in parsed database records and CSV rows:
an integer, a string, or `None` (absent). -/
inductive PyVal where
  | int (i : Int)
  | str (s : String)
  | none
deriving DecidableEq, Repr

/-- A parsed record: an ordered mapping from field name to value
(Python dict restricted to the fields the schema declares). -/
abbrev PyRec := List (String × PyVal)

/-- `item[key]` on a record.  Well-formed records contain every schema
field; on a missing key we default to the empty string (Python would raise
`KeyError`, which no claim exercises). -/
def recGet (item : PyRec) (key : String) : PyVal :=
  match item.lookup key with
  | Option.some v => v
  | Option.none => PyVal.str ""

/-- Python `str(value)` for the values stored in records. -/
def pyStr : PyVal → String
  | PyVal.int i => toString i
  | PyVal.str s => s
  | PyVal.none => "None"

/-- Python truthiness of a value, as tested by `filter(None, row)`:
`None`, `0` and the empty string are falsy. -/
def pyTruthy : PyVal → Bool
  | PyVal.int i => i ≠ 0
  | PyVal.str s => s ≠ ""
  | PyVal.none => false

/-- The parsed `Database` state consumed by the exporters
(`export.py`, class `Database`): the fixed table tuple and field lists are
constants of the class; `_cols`/`_rows` feed the CSV exporter and `_data`
holds the per-table record lists. -/
structure Database where
  name : String
  cols : List String
  rows : List (List PyVal)
  uf : List PyRec
  mesorregiao : List PyRec
  microrregiao : List PyRec
  municipio : List PyRec
  distrito : List PyRec
  subdistrito : List PyRec
deriving DecidableEq, Repr

/-- `Database._tables`: the six table names, ancestor to descendant. -/
def dbTables : List String :=
  ["uf", "mesorregiao", "microrregiao", "municipio", "distrito", "subdistrito"]

/-- `Database._fields`: ordered field list of each table. -/
def dbFields : String → List String
  | "uf" => ["id", "nome"]
  | "mesorregiao" => ["id", "id_uf", "nome"]
  | "microrregiao" => ["id", "id_mesorregiao", "id_uf", "nome"]
  | "municipio" => ["id", "id_microrregiao", "id_mesorregiao", "id_uf", "nome"]
  | "distrito" =>
      ["id", "id_municipio", "id_microrregiao", "id_mesorregiao", "id_uf", "nome"]
  | "subdistrito" =>
      ["id", "id_distrito", "id_municipio", "id_microrregiao", "id_mesorregiao",
       "id_uf", "nome"]
  | _ => []

/-- `self._db._data[table_name]` lookup. -/
def Database.dataOf (db : Database) : String → List PyRec
  | "uf" => db.uf
  | "mesorregiao" => db.mesorregiao
  | "microrregiao" => db.microrregiao
  | "municipio" => db.municipio
  | "distrito" => db.distrito
  | "subdistrito" => db.subdistrito
  | _ => []

/-! ### Python string primitives used by the exporters -/

/-- Python 2 `\s` (ASCII): space, tab, newline, carriage return, vertical
tab, form feed. -/
def pySpace (c : Char) : Bool :=
  c = ' ' ∨ c = '\t' ∨ c = '\n' ∨ c = '\r' ∨ c = '\x0b' ∨ c = '\x0c'

/-- Python 2 `\w` (ASCII, no `re.UNICODE`): alphanumerics and underscore. -/
def pyWord (c : Char) : Bool :=
  ('a' ≤ c ∧ c ≤ 'z') ∨ ('A' ≤ c ∧ c ≤ 'Z') ∨ ('0' ≤ c ∧ c ≤ '9') ∨ c = '_'

/-- Worker for Python `str.replace(old, new)`: replace non-overlapping
occurrences of `old` left to right (replacements are not rescanned);
`skip` counts pattern characters still to consume after a match.  `old`
is nonempty at every call site. -/
def pyReplaceGo (old new : List Char) : List Char → Nat → List Char
  | [], _ => []
  | c :: cs, skip =>
    match skip with
    | Nat.succ n => pyReplaceGo old new cs n
    | 0 =>
      if old.isPrefixOf (c :: cs) ∧ old ≠ [] then
        new ++ pyReplaceGo old new cs (old.length - 1)
      else
        c :: pyReplaceGo old new cs 0

/-- Python `str.replace(old, new)` proper. -/
def pyReplace (old new : List Char) (s : List Char) : List Char :=
  pyReplaceGo old new s 0

/-- Worker for Python `str.format(**data)` on the insert templates: copy
characters, and on `\x7bname\x7d` splice in `lookup name`.  `acc` holds the
reversed characters of a placeholder currently being read. -/
def pyFormatGo (lookup : String → String) (mode : Option (List Char)) :
    List Char → List Char
  | [] =>
    match mode with
    | Option.none => []
    | Option.some acc => (lookup (String.mk acc.reverse)).data
  | c :: rest =>
    match mode with
    | Option.none =>
      if c = '\x7b' then pyFormatGo lookup (Option.some []) rest
      else c :: pyFormatGo lookup Option.none rest
    | Option.some acc =>
      if c = '\x7d' then
        (lookup (String.mk acc.reverse)).data ++ pyFormatGo lookup Option.none rest
      else pyFormatGo lookup (Option.some (c :: acc)) rest

/-- Python `template.format(**data)` with `lookup` giving the rendered
value of each placeholder name. -/
def pyFormat (lookup : String → String) (template : List Char) : List Char :=
  pyFormatGo lookup Option.none template

/-! ### The SQL exporter (`exporters.py`, class `SQL`) -/

/-- `SQL.__table`: a `CREATE TABLE` statement from its argument lines. -/
def SQL_table (table : String) (args : List String) : String :=
  "CREATE TABLE " ++ table ++ " (\n" ++ String.intercalate ",\n" args ++ "\n);\n"

/-- `SQL.__column`: one column definition line. -/
def SQL_column (column ty : String) : String :=
  "  " ++ column ++ " " ++ ty

/-- `SQL.__primaryKey`: lazy variant is a standalone `ALTER TABLE`
statement, the inline variant a `CREATE TABLE` argument line. -/
def SQL_primaryKey (lazy : Bool) (table column : String) : String :=
  if lazy then
    "ALTER TABLE " ++ table ++ "\n  ADD CONSTRAINT pk_" ++ table
      ++ "\n    PRIMARY KEY (" ++ column ++ ");"
  else
    "  CONSTRAINT pk_" ++ table ++ "\n    PRIMARY KEY (" ++ column ++ ")"

/-- `SQL.__foreignKey`: same two variants for a foreign key. -/
def SQL_foreignKey (lazy : Bool) (table column ftable fcolumn : String) : String :=
  if lazy then
    "ALTER TABLE " ++ table ++ "\n  ADD CONSTRAINT fk_" ++ table ++ "_" ++ ftable
      ++ "\n    FOREIGN KEY (" ++ column ++ ")\n      REFERENCES " ++ ftable
      ++ "(" ++ fcolumn ++ ");"
  else
    "  CONSTRAINT fk_" ++ table ++ "_" ++ ftable ++ "\n    FOREIGN KEY ("
      ++ column ++ ")\n      REFERENCES " ++ ftable ++ "(" ++ fcolumn ++ ")"

/-- `SQL.__constraints`: newline-joined constraint block. -/
def SQL_constraintsJoin (cs : List String) : String :=
  String.intercalate "\n" cs ++ "\n"

/-- `SQL.__index`: one `CREATE INDEX` statement. -/
def SQL_index (index table column : String) : String :=
  "CREATE INDEX " ++ index ++ " ON " ++ table ++ " (" ++ column ++ ");"

/-- `SQL.__indexes`: newline-joined index block. -/
def SQL_indexesJoin (idxs : List String) : String :=
  String.intercalate "\n" idxs ++ "\n"

/-- `SQL.__insert`: an `INSERT` statement template with placeholder
columns. -/
def SQL_insert (table : String) (cols : List String) : String :=
  "INSERT INTO " ++ table ++ " VALUES (" ++ String.intercalate ", " cols ++ ");"

/-- `SQL.__insertField`: the placeholder for one field, wrapped in single
quotes when the schema declares the field a string. -/
def SQL_insertField (name : String) (isStr : Bool) : String :=
  if isStr then "\x27\x7b" ++ name ++ "\x7d\x27" else "\x7b" ++ name ++ "\x7d"

/-- `SQL.__quote`: `value.replace("\x27", self._escape_char)`. -/
def SQL_quote (esc : String) (v : String) : String :=
  String.mk (pyReplace ['\x27'] esc.data v.data)

/-- `SQL.__init__` escape character: doubled quote for the sqlite dialect,
backslash escape otherwise. -/
def SQL_escapeChar (dialect : String) : String :=
  if dialect = "sqlite" then "\x27\x27" else "\\\x27"

/-- `SQL.__init__` lazy-constraints flag: `True` by default, cleared for
the sqlite dialect. -/
def SQL_lazyConstraints (dialect : String) : Bool :=
  if dialect = "sqlite" then false else true

/-- `SQL.__init__` `self._tables`: column definitions per table. -/
def SQL_tableDefs : String → List String
  | "uf" =>
      [SQL_column "id" "SMALLINT NOT NULL",
       SQL_column "nome" "VARCHAR(32) NOT NULL"]
  | "mesorregiao" =>
      [SQL_column "id" "SMALLINT NOT NULL",
       SQL_column "id_uf" "SMALLINT NOT NULL",
       SQL_column "nome" "VARCHAR(64) NOT NULL"]
  | "microrregiao" =>
      [SQL_column "id" "INTEGER NOT NULL",
       SQL_column "id_mesorregiao" "SMALLINT NOT NULL",
       SQL_column "id_uf" "SMALLINT NOT NULL",
       SQL_column "nome" "VARCHAR(64) NOT NULL"]
  | "municipio" =>
      [SQL_column "id" "INTEGER NOT NULL",
       SQL_column "id_microrregiao" "INTEGER NOT NULL",
       SQL_column "id_mesorregiao" "SMALLINT NOT NULL",
       SQL_column "id_uf" "SMALLINT NOT NULL",
       SQL_column "nome" "VARCHAR(64) NOT NULL"]
  | "distrito" =>
      [SQL_column "id" "INTEGER NOT NULL",
       SQL_column "id_municipio" "INTEGER NOT NULL",
       SQL_column "id_microrregiao" "INTEGER NOT NULL",
       SQL_column "id_mesorregiao" "SMALLINT NOT NULL",
       SQL_column "id_uf" "SMALLINT NOT NULL",
       SQL_column "nome" "VARCHAR(64) NOT NULL"]
  | "subdistrito" =>
      [SQL_column "id" "BIGINT NOT NULL",
       SQL_column "id_distrito" "INTEGER NOT NULL",
       SQL_column "id_municipio" "INTEGER NOT NULL",
       SQL_column "id_microrregiao" "INTEGER NOT NULL",
       SQL_column "id_mesorregiao" "SMALLINT NOT NULL",
       SQL_column "id_uf" "SMALLINT NOT NULL",
       SQL_column "nome" "VARCHAR(64) NOT NULL"]
  | _ => []

/-- `SQL.__init__` `self._constraints`: primary and foreign keys per
table, built with the dialect's constraint strategy. -/
def SQL_constraintsFor (lazy : Bool) : String → List String
  | "uf" => [SQL_primaryKey lazy "uf" "id"]
  | "mesorregiao" =>
      [SQL_primaryKey lazy "mesorregiao" "id",
       SQL_foreignKey lazy "mesorregiao" "id_uf" "uf" "id"]
  | "microrregiao" =>
      [SQL_primaryKey lazy "microrregiao" "id",
       SQL_foreignKey lazy "microrregiao" "id_mesorregiao" "mesorregiao" "id",
       SQL_foreignKey lazy "microrregiao" "id_uf" "uf" "id"]
  | "municipio" =>
      [SQL_primaryKey lazy "municipio" "id",
       SQL_foreignKey lazy "municipio" "id_microrregiao" "microrregiao" "id",
       SQL_foreignKey lazy "municipio" "id_mesorregiao" "mesorregiao" "id",
       SQL_foreignKey lazy "municipio" "id_uf" "uf" "id"]
  | "distrito" =>
      [SQL_primaryKey lazy "distrito" "id",
       SQL_foreignKey lazy "distrito" "id_municipio" "municipio" "id",
       SQL_foreignKey lazy "distrito" "id_microrregiao" "microrregiao" "id",
       SQL_foreignKey lazy "distrito" "id_mesorregiao" "mesorregiao" "id",
       SQL_foreignKey lazy "distrito" "id_uf" "uf" "id"]
  | "subdistrito" =>
      [SQL_primaryKey lazy "subdistrito" "id",
       SQL_foreignKey lazy "subdistrito" "id_distrito" "distrito" "id",
       SQL_foreignKey lazy "subdistrito" "id_municipio" "municipio" "id",
       SQL_foreignKey lazy "subdistrito" "id_microrregiao" "microrregiao" "id",
       SQL_foreignKey lazy "subdistrito" "id_mesorregiao" "mesorregiao" "id",
       SQL_foreignKey lazy "subdistrito" "id_uf" "uf" "id"]
  | _ => []

/-- `SQL.__init__` `self._indexes`: foreign-key indexes per table; `uf`
has no entry in the dictionary. -/
def SQL_indexesFor : String → Option (List String)
  | "mesorregiao" =>
      Option.some [SQL_index "fk_mesorregiao_uf" "mesorregiao" "id_uf"]
  | "microrregiao" =>
      Option.some
        [SQL_index "fk_microrregiao_mesorregiao" "microrregiao" "id_mesorregiao",
         SQL_index "fk_microrregiao_uf" "microrregiao" "id_uf"]
  | "municipio" =>
      Option.some
        [SQL_index "fk_municipio_microrregiao" "municipio" "id_microrregiao",
         SQL_index "fk_municipio_mesorregiao" "municipio" "id_mesorregiao",
         SQL_index "fk_municipio_uf" "municipio" "id_uf"]
  | "distrito" =>
      Option.some
        [SQL_index "fk_distrito_municipio" "distrito" "id_municipio",
         SQL_index "fk_distrito_microrregiao" "distrito" "id_microrregiao",
         SQL_index "fk_distrito_mesorregiao" "distrito" "id_mesorregiao",
         SQL_index "fk_distrito_uf" "distrito" "id_uf"]
  | "subdistrito" =>
      Option.some
        [SQL_index "fk_subdistrito_distrito" "subdistrito" "id_distrito",
         SQL_index "fk_subdistrito_municipio" "subdistrito" "id_municipio",
         SQL_index "fk_subdistrito_microrregiao" "subdistrito" "id_microrregiao",
         SQL_index "fk_subdistrito_mesorregiao" "subdistrito" "id_mesorregiao",
         SQL_index "fk_subdistrito_uf" "subdistrito" "id_uf"]
  | _ => Option.none

/-- `SQL.__init__` `self._inserts`: placeholder templates per table; the
`nome` field is the only string-typed one. -/
def SQL_insertFields : String → List String
  | t => (dbFields t).map (fun f => SQL_insertField f (f = "nome"))

/-- Python `str.strip()`: drop ASCII whitespace from both ends. -/
def pyStrip (l : List Char) : List Char :=
  ((l.dropWhile pySpace).reverse.dropWhile pySpace).reverse

/-- `str.strip()` at the `String` level. -/
def pyStripStr (s : String) : String :=
  String.mk (pyStrip s.data)

/-- The rendered value of one insert placeholder: integers pass through
`str()`, everything else goes through `SQL.__quote`. -/
def sqlFieldValue (esc : String) (item : PyRec) (key : String) : String :=
  match recGet item key with
  | PyVal.int i => toString i
  | v => SQL_quote esc (pyStr v)

/-- One rendered `INSERT` line:
`self.__insert(...).strip().format(**data) + "\n"`. -/
def sqlInsertLine (esc table : String) (item : PyRec) : String :=
  String.mk
    (pyFormat (sqlFieldValue esc item)
      (pyStrip (SQL_insert table (SQL_insertFields table)).data))
    ++ "\n"

/-- All `INSERT` lines of one table, in record order. -/
def sqlInsertsBlock (esc : String) (db : Database) (table : String) : String :=
  String.join ((db.dataOf table).map (sqlInsertLine esc table))

/-- The structure banner comment emitted before a table when not
minifying. -/
def sqlStructComment (t : String) : String :=
  "\n\x2d\x2d\n\x2d\x2d Structure for table \"" ++ t ++ "\"\n\x2d\x2d\n"

/-- The data banner comment. -/
def sqlDataComment (t : String) : String :=
  "\n\x2d\x2d\n\x2d\x2d Data for table \"" ++ t ++ "\"\n\x2d\x2d\n"

/-- The constraints banner comment. -/
def sqlConsComment (t : String) : String :=
  "\n\x2d\x2d\n\x2d\x2d Constraints for table \"" ++ t ++ "\"\n\x2d\x2d\n"

/-- The indexes banner comment. -/
def sqlIdxComment (t : String) : String :=
  "\n\x2d\x2d\n\x2d\x2d Indexes for table \"" ++ t ++ "\"\n\x2d\x2d\n"

/-- Everything `SQL.__str__`'s loop body appends for one table: nothing if
the table has no records, otherwise the `CREATE TABLE` (with constraints
inlined when not lazy), the `INSERT` lines, the lazy constraint block, and
the index block (`self._create_indexes` is constantly `True`).  Banner
comments are skipped when minifying. -/
def sqlSeg (db : Database) (minified lazy : Bool) (esc : String) (t : String) : String :=
  if db.dataOf t = [] then "" else
    (if minified then "" else sqlStructComment t)
    ++ SQL_table t
        (if lazy then SQL_tableDefs t else SQL_tableDefs t ++ SQL_constraintsFor lazy t)
    ++ (if minified then "" else sqlDataComment t)
    ++ sqlInsertsBlock esc db t
    ++ (if lazy then
          (if minified then "" else sqlConsComment t)
            ++ SQL_constraintsJoin (SQL_constraintsFor lazy t)
        else "")
    ++ (match SQL_indexesFor t with
        | Option.some idxs =>
            (if minified then "" else sqlIdxComment t) ++ SQL_indexesJoin idxs
        | Option.none => "")

/-- The accumulated script of `SQL.__str__` before the final `strip()` and
minification passes: the loop `for table_name in self._db._tables` with
`sql += …`. -/
def sqlBody (db : Database) (minified lazy : Bool) (esc : String) : String :=
  dbTables.foldl (fun acc t => acc ++ sqlSeg db minified lazy esc t) ""

/-! The six minification regex substitutions of `SQL.__str__`, in order.
Each is embedded as a character-level scan equivalent to the `re.sub`
call on the strings this exporter produces (ASCII `\s`/`\w`). -/

/-- Worker for passes 1 and 2, `re.sub("(?<=[;(])\s+", "", sql)` and
`re.sub(",\s(?=\x27)|,\s+", ",", sql)`: drop the whitespace run following
a trigger character (`skipping` marks being inside such a run). -/
def dropSpacesAfterGo (trig : Char → Bool) : List Char → Bool → List Char
  | [], _ => []
  | c :: cs, skipping =>
    if skipping && pySpace c then dropSpacesAfterGo trig cs true
    else c :: dropSpacesAfterGo trig cs (trig c)

/-- Drop the whitespace run following each trigger character. -/
def dropSpacesAfter (trig : Char → Bool) (s : List Char) : List Char :=
  dropSpacesAfterGo trig s false

/-- Worker for pass 3, `re.sub("\s+", " ", sql)`: collapse every
whitespace run to a single space (`inRun` marks being inside a run whose
space was already emitted). -/
def collapseSpacesGo : List Char → Bool → List Char
  | [], _ => []
  | c :: cs, inRun =>
    if pySpace c then
      if inRun then collapseSpacesGo cs true
      else ' ' :: collapseSpacesGo cs true
    else c :: collapseSpacesGo cs false

/-- Collapse every whitespace run to a single space. -/
def collapseSpaces (s : List Char) : List Char :=
  collapseSpacesGo s false

/-- Pass 4, `re.sub("(?<=\W)\s(?=\W)", "", sql)`: drop a single whitespace
character sitting between two non-word characters.  `prev` is the
preceding character of the original string (the lookbehind). -/
def dropSpaceBetweenNonWord (prev : Option Char) : List Char → List Char
  | [] => []
  | c :: cs =>
    if pySpace c
        && (match prev with | Option.some p => ! pyWord p | Option.none => false)
        && (match cs.head? with | Option.some n => ! pyWord n | Option.none => false)
    then dropSpaceBetweenNonWord (Option.some c) cs
    else c :: dropSpaceBetweenNonWord (Option.some c) cs

/-- Pass 5, `re.sub("(?<=\w)\s(?=\))", "", sql)`: drop a single whitespace
character between a word character and a closing parenthesis. -/
def dropSpaceBeforeParen (prev : Option Char) : List Char → List Char
  | [] => []
  | c :: cs =>
    if pySpace c
        && (match prev with | Option.some p => pyWord p | Option.none => false)
        && cs.head? = Option.some ')'
    then dropSpaceBeforeParen (Option.some c) cs
    else c :: dropSpaceBeforeParen (Option.some c) cs

/-- Pass 6, `re.sub("\s\((?=(?:(?:[^\x27]*\x27)\x7b2\x7d)*[^\x27]*$)", "(", sql)`:
drop a whitespace before an opening parenthesis when the remainder of the
string contains an even number of single quotes (the only literal-aware
pass). -/
def dropSpaceParenQuoteAware : List Char → List Char
  | [] => []
  | [c] => [c]
  | c :: d :: rest =>
    if pySpace c ∧ d = '(' ∧ rest.count '\x27' % 2 = 0 then
      '(' :: dropSpaceParenQuoteAware rest
    else c :: dropSpaceParenQuoteAware (d :: rest)

/-- The full minification pipeline of `SQL.__str__` (the six `re.sub`
passes, in source order). -/
def sqlMinify (s : String) : String :=
  String.mk
    (dropSpaceParenQuoteAware
      (dropSpaceBeforeParen Option.none
        (dropSpaceBetweenNonWord Option.none
          (collapseSpaces
            (dropSpacesAfter (fun c => c = ',')
              (dropSpacesAfter (fun c => c = ';' ∨ c = '(') s.data))))))

/-- `SQL.__str__`: accumulate the per-table script, `strip()` it, and
apply the minification passes when requested. -/
def SQL_str (db : Database) (minified : Bool) (dialect : String) : String :=
  let s :=
    pyStripStr (sqlBody db minified (SQL_lazyConstraints dialect) (SQL_escapeChar dialect))
  if minified then sqlMinify s else s

/-! ### The CSV exporter (`exporters.py`, class `CSV`) -/

/-- Double the quote character inside a quoted CSV field (the csv module's
quoting convention). -/
def csvEscapeQuotes (s : String) : String :=
  String.mk (s.data.flatMap (fun c => if c = '"' then ['"', '"'] else [c]))

/-- Whether `QUOTE_MINIMAL` must quote a field: it contains the delimiter,
the quote character, or a line-terminator character. -/
def csvNeedsQuote (s : String) : Bool :=
  s.data.any (fun c => c = ',' ∨ c = '"' ∨ c = '\n' ∨ c = '\r')

/-- Render one CSV cell.  Non-minified uses `QUOTE_NONNUMERIC` (every
non-numeric field quoted), minified uses `QUOTE_MINIMAL`. -/
def csvRenderCell (minified : Bool) (v : PyVal) : String :=
  match v with
  | PyVal.int i => toString i
  | PyVal.str s =>
      if minified then
        if csvNeedsQuote s then "\"" ++ csvEscapeQuotes s ++ "\"" else s
      else "\"" ++ csvEscapeQuotes s ++ "\""
  | PyVal.none => ""

/-- `filter(None, row)`: the cells of a row that survive into the emitted
CSV line (Python truthiness). -/
def csvCells (row : List PyVal) : List PyVal :=
  row.filter pyTruthy

/-- One emitted data row (`lineterminator="\n"`). -/
def csvLine (minified : Bool) (row : List PyVal) : String :=
  String.intercalate "," ((csvCells row).map (csvRenderCell minified)) ++ "\n"

/-- `CSV.__str__`: the header row of `self._db._cols` followed by every
data row of `self._db._rows`. -/
def CSV_str (db : Database) (minified : Bool) : String :=
  (String.intercalate ","
      (db.cols.map (fun c => csvRenderCell minified (PyVal.str c))) ++ "\n")
    ++ String.join (db.rows.map (csvLine minified))

/-! ### `BaseExporter.__toDict__` and the tagged-XML exporter -/

/-- `BaseExporter.__toDict__` for one record: the ordered field map with
the `id` entry extracted as the record's key and deleted from the map.
The `unicode` flag's UTF-8 decoding is the identity on this string model
and is dropped. -/
def toDictItem (strKeys : Bool) (t : String) (item : PyRec) : PyVal × PyRec :=
  let obj := (dbFields t).map (fun k => (k, recGet item k))
  let key := if strKeys then PyVal.str (pyStr (recGet item "id")) else recGet item "id"
  (key, obj.filter (fun kv => kv.1 ≠ "id"))

/-- `BaseExporter.__toDict__`: ordered map from table name to the keyed
records; tables with no records are skipped (`continue`). -/
def toDict (db : Database) (strKeys : Bool) : List (String × List (PyVal × PyRec)) :=
  dbTables.flatMap (fun t =>
    if db.dataOf t = [] then []
    else [(t, (db.dataOf t).map (toDictItem strKeys t))])

/-- An element or comment node of the lxml tree built by `XML.__str__`. -/
inductive XmlNode where
  | elem (tag : String) (attrs : List (String × String)) (children : List XmlNode)
      (text : Option String)
  | comment (s : String)

/-- One `<field name=…>` element with the stringified value as text. -/
def xmlFieldNode (item : PyRec) (f : String) : XmlNode :=
  XmlNode.elem "field" [("name", f)] [] (Option.some (pyStr (recGet item f)))

/-- One `<row>` element. -/
def xmlRowNode (t : String) (item : PyRec) : XmlNode :=
  XmlNode.elem "row" [] ((dbFields t).map (xmlFieldNode item)) Option.none

/-- One `<table name=…>` element. -/
def xmlTableNode (db : Database) (t : String) : XmlNode :=
  XmlNode.elem "table" [("name", t)] ((db.dataOf t).map (xmlRowNode t)) Option.none

/-- The `<database>` tree built by `XML.__str__`: per non-empty table a
banner comment (unless minified) and one `<table>` element; empty tables
are skipped (`continue`).  `lxml.etree.tostring` then renders this tree. -/
def XML_tree (db : Database) (minified : Bool) : XmlNode :=
  XmlNode.elem "database" [("name", db.name)]
    (dbTables.flatMap (fun t =>
      if db.dataOf t = [] then []
      else
        (if minified then [] else [XmlNode.comment (" Table " ++ t ++ " ")])
          ++ [xmlTableNode db t]))
    Option.none

/-- The child nodes of an element. -/
def XmlNode.childNodes : XmlNode → List XmlNode
  | XmlNode.elem _ _ ch _ => ch
  | XmlNode.comment _ => []

/-- Whether a node is a `<table>` element. -/
def isTableElem : XmlNode → Bool
  | XmlNode.elem "table" _ _ _ => true
  | _ => false

/-! ### The export driver (`export.py`, `DTB.export_db`) -/

/-- The steps `export_db` performs, in order: parsing the raw dataset into
the entity records, then the serialization work of the chosen exporter. -/
inductive ExportEvent where
  | parse
  | exportWork (fmt : String)
deriving DecidableEq, Repr

/-- Modelled from the spec: the module-level `FORMATS` registry of
`exporters.py` is not under `src/`; its keys are the `_format` attributes
of the exporter classes, which are. -/
def exporterFormats : List String :=
  ["csv", "json", "php", "plist", "sql", "sqlite3", "xml", "yaml"]

/-- `DTB.export_db` control flow: first
`self._db = parser(self._db, …).parse()` runs (reading every record of the
raw dataset), and only then is the requested format checked against the
registry; an unknown format raises `Exception("Unsupported output
format.")`.  The returned trace lists the work performed before the call
returns or raises. -/
def export_db (parseFn : Database → Database) (db : Database) (fmt : String) :
    List ExportEvent × Except String Database :=
  let parsed := parseFn db
  if fmt ∈ exporterFormats then
    ([ExportEvent.parse, ExportEvent.exportWork fmt], Except.ok parsed)
  else
    ([ExportEvent.parse], Except.error "Unsupported output format.")

/-! ### The dataset serializers (`serializers.py`) -/

/-- Modelled from the spec: one flattened record produced by
`record.serialize(flatten=True)` (the geodatabr schema and types modules
are not under `src/`).  It carries the entity-qualified id fields — absent
on records of shallower entities — plus its remaining rendered fields. -/
structure FlatRecord where
  state_id : Option Nat
  mesoregion_id : Option Nat
  microregion_id : Option Nat
  municipality_id : Option Nat
  district_id : Option Nat
  subdistrict_id : Option Nat
  fields : List (String × String)
deriving DecidableEq, Repr

/-- `record.get(key)` for the six composite-key fields. -/
def flatGet (r : FlatRecord) : String → Option Nat
  | "state_id" => r.state_id
  | "mesoregion_id" => r.mesoregion_id
  | "microregion_id" => r.microregion_id
  | "municipality_id" => r.municipality_id
  | "district_id" => r.district_id
  | "subdistrict_id" => r.subdistrict_id
  | _ => Option.none

/-- `record.get(key) or 0`: an absent field sorts as zero. -/
def orZero : Option Nat → Nat
  | Option.some n => n
  | Option.none => 0

/-- The composite sort key of
`FlattenedSerializer.serialize`'s `records.sort(key=…)` lambda. -/
def flatKeyList (r : FlatRecord) : List Nat :=
  [orZero (flatGet r "state_id"), orZero (flatGet r "mesoregion_id"),
   orZero (flatGet r "microregion_id"), orZero (flatGet r "municipality_id"),
   orZero (flatGet r "district_id"), orZero (flatGet r "subdistrict_id")]

/-- Lexicographic comparison of key tuples, as Python compares the key
tuples of `list.sort`. -/
def lexLe : List Nat → List Nat → Bool
  | [], _ => true
  | _ :: _, [] => false
  | a :: as, b :: bs => if a < b then true else if b < a then false else lexLe as bs

/-- The sort's total preorder on flattened records. -/
def flatRecLe (a b : FlatRecord) : Bool :=
  lexLe (flatKeyList a) (flatKeyList b)

/-- `FlattenedSerializer.serialize`: append every entity's records in
entity order (the input lists), then `records.sort(key=…)` — Python's
stable sort, embedded as a stable merge sort by the composite key.  The
`_` key localization is the identity on the key names used by the sort. -/
def FlattenedSerializer_serialize (input : List (List FlatRecord)) : List FlatRecord :=
  (input.flatMap id).mergeSort flatRecLe

/-- Modelled from the spec: the entity schema (table name and ordered
column list per entity, root to leaf); the geodatabr schema module is not
under `src/`. -/
def entitySchema : List (String × List String) :=
  [("states", ["id", "name"]),
   ("mesoregions", ["id", "state_id", "name"]),
   ("microregions", ["id", "mesoregion_id", "state_id", "name"]),
   ("municipalities", ["id", "microregion_id", "mesoregion_id", "state_id", "name"]),
   ("districts",
    ["id", "municipality_id", "microregion_id", "mesoregion_id", "state_id", "name"]),
   ("subdistricts",
    ["id", "district_id", "municipality_id", "microregion_id", "mesoregion_id",
     "state_id", "name"])]

/-- Modelled from the spec: the i18n `_` lookup applied to table and
column names; the translation table is external, so it is the identity
here. -/
def gettextName (s : String) : String := s

/-- `_(name)` applied when the `localize` option is set. -/
def locName (localize : Bool) (s : String) : String :=
  if localize then gettextName s else s

/-- The body of `Serializer.serialize`'s inner loop: one record rendered
over the entity's columns, localizing column names and optionally
stringifying values. -/
def Serializer_processRecord (localize forceStr : Bool) (cols : List String)
    (rec : PyRec) : PyRec :=
  cols.map (fun c =>
    (locName localize c,
     if forceStr then PyVal.str (pyStr (recGet rec c)) else recGet rec c))

/-- The computation of `Serializer.serialize` (before memoization): for
each entity in order, skip it when it has no records, otherwise emit the
localized table name with its rendered records. -/
def Serializer_compute (localize forceStr : Bool) (recs : String → List PyRec) :
    List (String × List PyRec) :=
  entitySchema.flatMap (fun e =>
    if recs e.1 = [] then []
    else [(locName localize e.1, (recs e.1).map (Serializer_processRecord localize forceStr e.2))])

/-- A `Serializer` instance: its options and the `@cachedmethod()` cache
slot for `serialize` (the decorator lives in
`geodatabr.core.helpers.decorators`, not under `src/`; modelled from the
spec: the first call computes and stores the result on the instance,
later calls return the stored result). -/
structure SerializerInst where
  localize : Bool
  forceStr : Bool
  cache : Option (List (String × List PyRec))
deriving DecidableEq, Repr

/-- A call to the memoized `Serializer.serialize`: returns the result, the
updated instance, and whether the computation actually ran. -/
def Serializer_serialize (recs : String → List PyRec) (s : SerializerInst) :
    (List (String × List PyRec)) × SerializerInst × Bool :=
  match s.cache with
  | Option.some r => (r, s, false)
  | Option.none =>
      let r := Serializer_compute s.localize s.forceStr recs
      (r, { s with cache := Option.some r }, true)

/-! ### Class-level storage of `Database` (`export.py`) under Python
attribute semantics -/

/-- A heap of the mutable container objects: list objects and dict
objects, addressed by index. -/
structure PyHeap where
  lists : List (List String)
  dicts : List (List (String × List PyRec))
deriving DecidableEq, Repr

/-- Read a list object. -/
def PyHeap.getList (h : PyHeap) (r : Nat) : List String :=
  h.lists.getD r []

/-- Overwrite a list object. -/
def PyHeap.setList (h : PyHeap) (r : Nat) (v : List String) : PyHeap :=
  { h with lists := h.lists.set r v }

/-- Read a dict object. -/
def PyHeap.getDict (h : PyHeap) (r : Nat) : List (String × List PyRec) :=
  h.dicts.getD r []

/-- Overwrite a dict object. -/
def PyHeap.setDict (h : PyHeap) (r : Nat) (v : List (String × List PyRec)) : PyHeap :=
  { h with dicts := h.dicts.set r v }

/-- `d[k] = v` on a Python dict (assoc-list model). -/
def dictSet (d : List (String × List PyRec)) (k : String) (v : List PyRec) :
    List (String × List PyRec) :=
  match d with
  | [] => [(k, v)]
  | (k', v') :: rest => if k' = k then (k, v) :: rest else (k', v') :: dictSet rest k v

/-- The class attribute dictionary of `Database`: `_cols` and `_rows` are
the list objects at `lists` indices 0 and 1, `_data` the dict object at
`dicts` index 0.  These objects are created once, when the class body is
evaluated. -/
def databaseClassAttrs : List (String × Nat) :=
  [("_cols", 0), ("_rows", 1), ("_data", 0)]

/-- The heap right after the `Database` class body ran: one empty list for
`_cols`, one for `_rows`, one empty dict for `_data`. -/
def databaseClassHeap : PyHeap :=
  { lists := [[], []], dicts := [[]] }

/-- A `Database` instance: the attributes `__init__` assigns on `self`
(`_base` is reduced to the year, `_name` to the formatted name); container
attributes are *not* among them. -/
structure DbInst where
  year : Nat
  name : String
  instAttrs : List (String × Nat)
deriving DecidableEq, Repr

/-- Python attribute lookup: the instance dictionary first, then the class
dictionary. -/
def resolveAttr (inst : DbInst) (attr : String) : Option Nat :=
  match inst.instAttrs.lookup attr with
  | Option.some r => Option.some r
  | Option.none => databaseClassAttrs.lookup attr

/-- `Database.__init__`: assigns `_base`/`_name` on the instance, then for
every table name appends `id_`/`nome_` columns through `self._cols` and
assigns `self._data[table_name] = []` — both resolving, through attribute
lookup, to the class-level objects. -/
def Database_init (year : Nat) (h : PyHeap) : DbInst × PyHeap :=
  let inst : DbInst := { year := year, name := "dtb_" ++ toString year, instAttrs := [] }
  let h := dbTables.foldl
    (fun h t =>
      let h := match resolveAttr inst "_cols" with
        | Option.some r => h.setList r (h.getList r ++ ["id_" ++ t, "nome_" ++ t])
        | Option.none => h
      match resolveAttr inst "_data" with
        | Option.some r => h.setDict r (dictSet (h.getDict r) t [])
        | Option.none => h)
    h
  (inst, h)

/-- The `_cols` list as observed through an instance. -/
def colsThrough (h : PyHeap) (d : DbInst) : List String :=
  match resolveAttr d "_cols" with
  | Option.some r => h.getList r
  | Option.none => []

/-- The column names one `__init__` run appends. -/
def initColNames : List String :=
  dbTables.flatMap (fun t => ["id_" ++ t, "nome_" ++ t])

/-! ### Derived observers and example inputs -/

/-- Elements at odd positions of a list (the segments between quote
delimiters of a quote-split string). -/
def oddIdxElems {α : Type} : List α → List α
  | [] => []
  | [_] => []
  | _ :: b :: rest => b :: oddIdxElems rest

/-- The contents of the single-quoted string literals of an SQL script, in
order: what a reader recovers as the string field values. -/
def sqlLiterals (s : String) : List String :=
  (oddIdxElems (s.data.splitOn '\x27')).map String.mk

/-- First index at which `needle` occurs in `hay`. -/
def strFindIdx (needle : List Char) : List Char → Option Nat
  | [] => if needle = [] then Option.some 0 else Option.none
  | c :: rest =>
    if needle.isPrefixOf (c :: rest) then Option.some 0
    else (strFindIdx needle rest).map (· + 1)

/-- Whether the first occurrence of `n1` in `hay` strictly precedes the
first occurrence of `n2` (both must occur). -/
def firstBefore (hay n1 n2 : String) : Bool :=
  match strFindIdx n1.data hay.data, strFindIdx n2.data hay.data with
  | Option.some i, Option.some j => decide (i < j)
  | _, _ => false

/-- A database with no records (and no tabular rows). -/
def emptyDb : Database :=
  { name := "dtb_2014", cols := [], rows := [],
    uf := [], mesorregiao := [], microrregiao := [],
    municipio := [], distrito := [], subdistrito := [] }

/-- A `uf` record. -/
def exRecUf (i : Int) (nome : String) : PyRec :=
  [("id", PyVal.int i), ("nome", PyVal.str nome)]

/-- One state whose name contains a run of two spaces. -/
def exDbDoubleSpace : Database :=
  { emptyDb with uf := [exRecUf 11 "AB  CD"] }

/-- One state and one mesoregion, both populated. -/
def exDbTwoTables : Database :=
  { emptyDb with
    uf := [exRecUf 11 "ACRE"],
    mesorregiao :=
      [[("id", PyVal.int 1101), ("id_uf", PyVal.int 11),
        ("nome", PyVal.str "VALE DO JURUA")]] }

/-- One state whose name contains a run of two spaces (semantic
round-trip example). -/
def exDbRio : Database :=
  { emptyDb with uf := [exRecUf 12 "RIO  BRANCO"] }

/-- A tabular database whose single row holds the present-but-falsy value
`0` next to a truthy string. -/
def exDbZeroRow : Database :=
  { emptyDb with
    cols := ["id_uf", "nome_uf"]
    rows := [[PyVal.int 0, PyVal.str "X"]] }

/-! ### Helper lemmas -/

/-- Accumulating string fold splits off its initial accumulator. -/
theorem strFoldl_shift {α : Type} (f : α → String) :
    ∀ (l : List α) (acc : String),
      l.foldl (fun a x => a ++ f x) acc = acc ++ l.foldl (fun a x => a ++ f x) "" := by
  intro l
  induction l with
  | nil => intro acc; simp
  | cons x xs ih =>
    intro acc
    simp only [List.foldl_cons]
    rw [ih (acc ++ f x), ih ("" ++ f x)]
    simp [String.append_assoc]

/-- Any member's contribution can be isolated inside an accumulating
string fold. -/
theorem strFoldl_pick {α : Type} (f : α → String) :
    ∀ (l : List α) (t : α), t ∈ l →
      ∃ pre post, l.foldl (fun a x => a ++ f x) "" = pre ++ f t ++ post := by
  intro l
  induction l with
  | nil => intro t h; cases h
  | cons x xs ih =>
    intro t h
    rw [List.foldl_cons, strFoldl_shift f xs ("" ++ f x)]
    rcases List.mem_cons.mp h with rfl | hmem
    · exact ⟨"", xs.foldl (fun a x => a ++ f x) "", by simp [String.append_assoc]⟩
    · obtain ⟨pre, post, hp⟩ := ih t hmem
      exact ⟨f x ++ pre, post, by simp [hp, String.append_assoc]⟩

/-- `String.join` of a mapped list is the accumulating fold. -/
theorem strJoin_map_eq_foldl {α : Type} (f : α → String) (l : List α) :
    String.join (l.map f) = (l.map f).foldl (fun a x => a ++ x) "" := rfl

/-- Any member's contribution can be isolated inside a joined map. -/
theorem strJoinMap_pick {α : Type} (f : α → String) (l : List α) (t : α)
    (h : t ∈ l) : ∃ pre post, String.join (l.map f) = pre ++ f t ++ post := by
  have : String.join (l.map f) = l.foldl (fun a x => a ++ f x) "" := by
    rw [strJoin_map_eq_foldl, List.foldl_map]
  rw [this]
  exact strFoldl_pick f l t h

/-- Two members in list order can both be isolated, in that order, inside
an accumulating string fold. -/
theorem strFoldl_pick2 {α : Type} (f : α → String) :
    ∀ (l : List α) (t u : α), List.Sublist [t, u] l →
      ∃ pre mid post,
        l.foldl (fun a x => a ++ f x) "" = pre ++ f t ++ mid ++ f u ++ post := by
  intro l
  induction l with
  | nil => intro t u h; exact absurd h (by simp)
  | cons x xs ih =>
    intro t u h
    rw [List.foldl_cons, strFoldl_shift f xs ("" ++ f x)]
    cases h with
    | cons _ h' =>
      obtain ⟨pre, mid, post, hp⟩ := ih t u h'
      exact ⟨f x ++ pre, mid, post, by simp [hp, String.append_assoc]⟩
    | cons₂ _ h' =>
      obtain ⟨pre, post, hp⟩ := strFoldl_pick f xs u (h'.subset (by simp))
      exact ⟨"", pre, post, by simp [hp, String.append_assoc]⟩

/-- A guarded singleton `flatMap` is a filtered map. -/
theorem flatMap_guard {α β : Type} (l : List α) (c : α → Prop) [DecidablePred c]
    (g : α → β) :
    l.flatMap (fun t => if c t then [] else [g t])
      = (l.filter (fun t => ¬ c t)).map g := by
  induction l with
  | nil => rfl
  | cons x xs ih =>
    by_cases h : c x <;> simp [List.filter_cons, h, ih]

/-- `filter` distributes over `flatMap`. -/
theorem filter_flatMap_comm {α β : Type} (l : List α) (g : α → List β)
    (p : β → Bool) :
    (l.flatMap g).filter p = l.flatMap (fun a => (g a).filter p) := by
  induction l with
  | nil => rfl
  | cons x xs ih => simp [List.filter_append, ih]

/-- A list whose elements are pairwise related in any order is
`Pairwise`. -/
theorem pairwise_of_mem {α : Type} {R : α → α → Prop} :
    ∀ (l : List α), (∀ a ∈ l, ∀ b ∈ l, R a b) → l.Pairwise R := by
  intro l
  induction l with
  | nil => intro _; exact List.Pairwise.nil
  | cons x xs ih =>
    intro h
    exact List.Pairwise.cons (fun b hb => h x (by simp) b (by simp [hb]))
      (ih (fun a ha b hb => h a (by simp [ha]) b (by simp [hb])))

/-- One unfolding step of `pyReplaceGo` outside a skip. -/
theorem pyReplaceGo_zero_cons (old new : List Char) (c : Char) (cs : List Char) :
    pyReplaceGo old new (c :: cs) 0
      = if old.isPrefixOf (c :: cs) ∧ old ≠ [] then
          new ++ pyReplaceGo old new cs (old.length - 1)
        else c :: pyReplaceGo old new cs 0 := rfl

/-- `str.replace` with a one-character pattern maps each occurrence of the
character to the replacement and leaves everything else unchanged. -/
theorem pyReplace_single (q : Char) (new : List Char) :
    ∀ s : List Char,
      pyReplace [q] new s = s.flatMap (fun c => if c = q then new else [c]) := by
  intro s
  induction s with
  | nil => rfl
  | cons c cs ih =>
    show pyReplaceGo [q] new (c :: cs) 0 = _
    rw [pyReplaceGo_zero_cons]
    by_cases hc : c = q
    · subst hc
      have hpre : [c].isPrefixOf (c :: cs) = true := by simp [List.isPrefixOf]
      rw [if_pos ⟨hpre, by simp⟩]
      show new ++ pyReplace [c] new cs = _
      simp [ih]
    · have hpre : ([q].isPrefixOf (c :: cs)) = false := by
        simp only [List.isPrefixOf, List.isPrefixOf_nil_left, Bool.and_true, beq_eq_false_iff_ne, ne_eq]
        exact fun h => hc h.symm
      rw [if_neg (by simp [hpre])]
      show c :: pyReplace [q] new cs = _
      simp [hc, ih]

/-- Key comparison is reflexive. -/
theorem lexLe_refl : ∀ l : List Nat, lexLe l l = true := by
  intro l
  induction l with
  | nil => rfl
  | cons a as ih => simp [lexLe, ih]

/-- Key comparison is total. -/
theorem lexLe_total : ∀ a b : List Nat, (lexLe a b || lexLe b a) = true := by
  intro a
  induction a with
  | nil => intro b; simp [lexLe]
  | cons x xs ih =>
    intro b
    cases b with
    | nil => simp [lexLe]
    | cons y ys =>
      by_cases hxy : x < y
      · simp [lexLe, hxy]
      · by_cases hyx : y < x
        · simp [lexLe, hxy, hyx]
        · have hxe : ¬ x < y := hxy
          simp [lexLe, hxe, hyx, Nat.lt_irrefl]
          have := ih ys
          rcases Bool.or_eq_true_iff.mp this with h | h
          · exact Or.inl h
          · exact Or.inr h

/-- Key comparison is transitive. -/
theorem lexLe_trans :
    ∀ a b c : List Nat, lexLe a b = true → lexLe b c = true → lexLe a c = true := by
  intro a
  induction a with
  | nil => intro b c _ _; rfl
  | cons x xs ih =>
    intro b c hab hbc
    cases b with
    | nil => simp [lexLe] at hab
    | cons y ys =>
      cases c with
      | nil => simp [lexLe] at hbc
      | cons z zs =>
        simp only [lexLe] at hab hbc ⊢
        by_cases hxy : x < y
        · by_cases hyz : y < z
          · simp [Nat.lt_trans hxy hyz]
          · by_cases hzy : z < y
            · simp only [if_neg hyz, if_pos hzy] at hbc; cases hbc
            · have : y = z := Nat.le_antisymm (Nat.le_of_not_lt hzy) (Nat.le_of_not_lt hyz)
              subst this
              simp [hxy]
        · by_cases hyx : y < x
          · simp only [if_neg hxy, if_pos hyx] at hab; cases hab
          · have hxyeq : x = y := Nat.le_antisymm (Nat.le_of_not_lt hyx) (Nat.le_of_not_lt hxy)
            subst hxyeq
            by_cases hyz : x < z
            · simp [hyz]
            · by_cases hzy : z < x
              · simp only [if_neg hyz, if_pos hzy] at hbc; cases hbc
              · simp only [if_neg hxy, if_neg hyx] at hab
                simp only [if_neg hyz, if_neg hzy] at hbc ⊢
                exact ih ys zs hab hbc

/-- The record order is total. -/
theorem flatRecLe_total (a b : FlatRecord) : (flatRecLe a b || flatRecLe b a) = true :=
  lexLe_total _ _

/-- The record order is transitive. -/
theorem flatRecLe_trans (a b c : FlatRecord) :
    flatRecLe a b = true → flatRecLe b c = true → flatRecLe a c = true :=
  lexLe_trans _ _ _

/-! ### Claim theorems -/

/-- C9: serialization is memoized per serializer instance — after any
first call to `serialize`, every later call on the resulting instance
returns the cached result of that first call, unchanged, without running
the computation again (third component `false`). -/
theorem claim_C9_thm (recs : String → List PyRec) (s : SerializerInst) :
    Serializer_serialize recs ((Serializer_serialize recs s).2.1)
      = ((Serializer_serialize recs s).1, (Serializer_serialize recs s).2.1, false) := by
  cases h : s.cache <;> simp [Serializer_serialize, h]

/-- C10: the class-level containers `_cols`, `_rows` and `_data` are
aliased by every `Database` instance: attribute lookup resolves them to
the same class-level objects for any two instances, and the column names
appended while constructing the second instance are visible through the
first, which ends up seeing both instances' appends. -/
theorem claim_C10_thm (y1 y2 : Nat) :
    resolveAttr (Database_init y1 databaseClassHeap).1 "_cols"
        = resolveAttr (Database_init y2 (Database_init y1 databaseClassHeap).2).1 "_cols"
    ∧ resolveAttr (Database_init y1 databaseClassHeap).1 "_rows"
        = resolveAttr (Database_init y2 (Database_init y1 databaseClassHeap).2).1 "_rows"
    ∧ resolveAttr (Database_init y1 databaseClassHeap).1 "_data"
        = resolveAttr (Database_init y2 (Database_init y1 databaseClassHeap).2).1 "_data"
    ∧ colsThrough (Database_init y2 (Database_init y1 databaseClassHeap).2).2
          (Database_init y1 databaseClassHeap).1
        = colsThrough (Database_init y2 (Database_init y1 databaseClassHeap).2).2
            (Database_init y2 (Database_init y1 databaseClassHeap).2).1
    ∧ colsThrough (Database_init y1 databaseClassHeap).2
          (Database_init y1 databaseClassHeap).1 = initColNames
    ∧ colsThrough (Database_init y2 (Database_init y1 databaseClassHeap).2).2
          (Database_init y1 databaseClassHeap).1
        = initColNames ++ initColNames := by
  have hc : databaseClassAttrs.lookup "_cols" = Option.some 0 := by decide
  have hd : databaseClassAttrs.lookup "_data" = Option.some 0 := by decide
  refine ⟨rfl, rfl, rfl, ?_, ?_, ?_⟩ <;>
    simp [Database_init, databaseClassHeap, resolveAttr, colsThrough,
      initColNames, dbTables, PyHeap.getList, PyHeap.setList, PyHeap.getDict,
      PyHeap.setDict, dictSet, hc, hd, List.getD]

/-- C1 (counterexample): requesting the unregistered format
`"unknown-format"` does fail, but only after the raw dataset has been
parsed — the trace of work performed before the failure contains the
parse step, contradicting "before any record of the entity tree is read
or parsed". -/
theorem claim_C1_cex :
    (export_db id emptyDb "unknown-format").2
        = Except.error "Unsupported output format."
    ∧ ExportEvent.parse ∈ (export_db id emptyDb "unknown-format").1 :=
  ⟨rfl, by decide⟩

/-- C1 (amended): for every unregistered format identifier, `export_db`
fails with the unsupported-format error before constructing any exporter
or doing any serialization-to-output work — its trace is exactly the
parse step — but after the entity tree has been parsed. -/
theorem claim_C1_thm (parseFn : Database → Database) (db : Database) (fmt : String)
    (h : fmt ∉ exporterFormats) :
    export_db parseFn db fmt
      = ([ExportEvent.parse], Except.error "Unsupported output format.") := by
  simp [export_db, h]

/-- C1 (witness): the amended theorem applied at `"unknown-format"`. -/
theorem claim_C1_witness :
    "unknown-format" ∉ exporterFormats
    ∧ export_db id emptyDb "unknown-format"
        = ([ExportEvent.parse], Except.error "Unsupported output format.") :=
  ⟨by decide, claim_C1_thm id emptyDb "unknown-format" (by decide)⟩

/-- The tables that actually carry records, in table order. -/
def nonEmptyTables (db : Database) : List String :=
  dbTables.filter (fun t => ¬ (db.dataOf t = []))

/-- C6: tables with zero records are omitted entirely — the nested map of
`__toDict__` has exactly the non-empty tables as keys (in order), and the
tagged-XML tree has exactly one `<table>` element per non-empty table and
none for any empty table. -/
theorem claim_C6_thm (db : Database) (strKeys minified : Bool) :
    (toDict db strKeys).map Prod.fst = nonEmptyTables db
    ∧ (XML_tree db minified).childNodes.filter isTableElem
        = (nonEmptyTables db).map (xmlTableNode db) := by
  constructor
  · rw [toDict, List.map_flatMap]
    have hpt : ∀ t : String,
        ((if db.dataOf t = [] then []
          else [(t, (db.dataOf t).map (toDictItem strKeys t))]).map Prod.fst)
          = (if db.dataOf t = [] then [] else [(fun (t : String) => t) t]) := by
      intro t; by_cases h : db.dataOf t = [] <;> simp [h]
    simp only [hpt]
    rw [flatMap_guard dbTables (fun t => db.dataOf t = []) (fun t => t)]
    simp [nonEmptyTables]
  · show (dbTables.flatMap fun t =>
        if db.dataOf t = [] then []
        else (if minified then [] else [XmlNode.comment (" Table " ++ t ++ " ")])
          ++ [xmlTableNode db t]).filter isTableElem
      = (nonEmptyTables db).map (xmlTableNode db)
    rw [filter_flatMap_comm]
    have hpt : ∀ t : String,
        ((if db.dataOf t = [] then []
          else (if minified then [] else [XmlNode.comment (" Table " ++ t ++ " ")])
            ++ [xmlTableNode db t]).filter isTableElem)
          = (if db.dataOf t = [] then [] else [xmlTableNode db t]) := by
      intro t
      by_cases h : db.dataOf t = []
      · simp [h]
      · cases minified <;>
          simp [h, List.filter_append, isTableElem, xmlTableNode, List.filter_cons]
    simp only [hpt]
    rw [flatMap_guard dbTables (fun t => db.dataOf t = []) (xmlTableNode db)]
    rfl

/-- C7: the relational exporter substitutes the dialect's escape sequence
for every embedded quote — the emitted `INSERT` carries the value with
each original quote character rendered as `\x5c\x27` under the standard
dialect's escape and as `\x27\x27` under the sqlite dialect's, and the
escaping rewrites nothing else. -/
theorem claim_C7_thm (i : Int) (v : String) :
    sqlInsertLine (SQL_escapeChar "standard") "uf"
        [("id", PyVal.int i), ("nome", PyVal.str v)]
      = "INSERT INTO uf VALUES (" ++ toString i ++ ", \x27"
          ++ SQL_quote (SQL_escapeChar "standard") v ++ "\x27);\n"
    ∧ (SQL_quote (SQL_escapeChar "standard") v).data
        = v.data.flatMap (fun c => if c = '\x27' then ['\\', '\x27'] else [c])
    ∧ (SQL_quote (SQL_escapeChar "sqlite") v).data
        = v.data.flatMap (fun c => if c = '\x27' then ['\x27', '\x27'] else [c]) := by
  have hstd : (SQL_escapeChar "standard").data = ['\\', '\x27'] := by decide
  have hsqlite : (SQL_escapeChar "sqlite").data = ['\x27', '\x27'] := by decide
  refine ⟨?_, ?_, ?_⟩
  · have htmpl : pyStrip (SQL_insert "uf" (SQL_insertFields "uf")).data
        = ("INSERT INTO uf VALUES (\x7bid\x7d, \x27\x7bnome\x7d\x27);").data := by decide
    have hid : sqlFieldValue (SQL_escapeChar "standard")
        [("id", PyVal.int i), ("nome", PyVal.str v)] "id" = toString i := rfl
    have hnome : sqlFieldValue (SQL_escapeChar "standard")
        [("id", PyVal.int i), ("nome", PyVal.str v)] "nome"
          = SQL_quote (SQL_escapeChar "standard") v := rfl
    rw [sqlInsertLine, htmpl]
    simp [pyFormat, pyFormatGo, String.ext_iff, String.data_append, hid, hnome]
  · rw [SQL_quote, ← hstd]
    show (String.mk (pyReplace ['\x27'] (SQL_escapeChar "standard").data v.data)).data = _
    rw [pyReplace_single, hstd]
  · rw [SQL_quote, ← hsqlite]
    show (String.mk (pyReplace ['\x27'] (SQL_escapeChar "sqlite").data v.data)).data = _
    rw [pyReplace_single, hsqlite]

/-- C4: the flattened serialization is totally ordered ascending by the
composite key `(state_id, …, subdistrict_id)` with absent fields treated
as zero — pairwise and hence for every two adjacent records — it is a
permutation of the concatenated input records, and the sort is stable on
ties: records with equal keys keep their input order. -/
theorem claim_C4_thm (input : List (List FlatRecord)) :
    List.Pairwise (fun a b => flatRecLe a b = true) (FlattenedSerializer_serialize input)
    ∧ List.Chain' (fun a b => lexLe (flatKeyList a) (flatKeyList b) = true)
        (FlattenedSerializer_serialize input)
    ∧ (FlattenedSerializer_serialize input).Perm (input.flatMap id)
    ∧ ∀ ks : List Nat,
        (FlattenedSerializer_serialize input).filter (fun r => flatKeyList r = ks)
          = (input.flatMap id).filter (fun r => flatKeyList r = ks) := by
  have hsorted :=
    List.sorted_mergeSort flatRecLe_trans flatRecLe_total (input.flatMap id)
  refine ⟨hsorted, ?_, List.mergeSort_perm _ _, ?_⟩
  · exact List.Pairwise.chain' hsorted
  · intro ks
    have hsub : List.Sublist
        ((input.flatMap id).filter (fun r => flatKeyList r = ks))
        (input.flatMap id) := List.filter_sublist _
    have hpw : ((input.flatMap id).filter (fun r => flatKeyList r = ks)).Pairwise
        (fun a b => flatRecLe a b = true) := by
      apply pairwise_of_mem
      intro a ha b hb
      have hka : flatKeyList a = ks := of_decide_eq_true (List.mem_filter.mp ha).2
      have hkb : flatKeyList b = ks := of_decide_eq_true (List.mem_filter.mp hb).2
      show flatRecLe a b = true
      rw [flatRecLe, hka, hkb]
      exact lexLe_refl ks
    have hstab :=
      List.sublist_mergeSort flatRecLe_trans flatRecLe_total hpw hsub
    have hsubf : List.Sublist
        ((input.flatMap id).filter (fun r => flatKeyList r = ks))
        (((input.flatMap id).mergeSort flatRecLe).filter
          (fun r => flatKeyList r = ks)) := by
      have h2 := List.Sublist.filter (fun r => decide (flatKeyList r = ks)) hstab
      simp only [List.filter_filter, Bool.and_self] at h2
      exact h2
    have hperm :
        (((input.flatMap id).mergeSort flatRecLe).filter
            (fun r => flatKeyList r = ks)).Perm
          ((input.flatMap id).filter (fun r => flatKeyList r = ks)) :=
      (List.mergeSort_perm _ _).filter _
    exact (hsubf.eq_of_length hperm.length_eq.symm).symm

/-- C8 (counterexample): a present-but-falsy field value is omitted —
`filter(None, row)` drops the present integer `0`, so the emitted row is
not "exactly the fields with absent values omitted": the rendered CSV of
a database whose row is `[0, "X"]` carries only the `"X"` cell. -/
theorem claim_C8_cex :
    PyVal.int 0 ∈ [PyVal.int 0, PyVal.str "X"]
    ∧ PyVal.int 0 ≠ PyVal.none
    ∧ csvCells [PyVal.int 0, PyVal.str "X"]
        ≠ [PyVal.int 0, PyVal.str "X"].filter (fun v => ¬ (v = PyVal.none))
    ∧ CSV_str exDbZeroRow false = "\"id_uf\",\"nome_uf\"\n\"X\"\n" := by
  refine ⟨by decide, by decide, by decide, by decide⟩

/-- C8 (amended): in every emitted CSV data row, exactly the fields with
falsy values — absent (`None`), integer `0`, or the empty string — are
omitted, and every truthy field value is emitted: the row's cells are the
truthiness-filtered fields, and each value's multiplicity in the emitted
cells is its multiplicity in the row if truthy and zero otherwise. -/
theorem claim_C8_thm (db : Database) (minified : Bool) (row : List PyVal)
    (h : row ∈ db.rows) :
    (∃ pre post, CSV_str db minified = pre ++ csvLine minified row ++ post)
    ∧ csvLine minified row
        = String.intercalate ","
            ((row.filter pyTruthy).map (csvRenderCell minified)) ++ "\n"
    ∧ ∀ v : PyVal, (csvCells row).count v
        = if pyTruthy v then row.count v else 0 := by
  refine ⟨?_, rfl, ?_⟩
  · obtain ⟨pre, post, hp⟩ := strJoinMap_pick (csvLine minified) db.rows row h
    refine ⟨(String.intercalate ","
        (db.cols.map (fun c => csvRenderCell minified (PyVal.str c))) ++ "\n") ++ pre,
      post, ?_⟩
    rw [CSV_str, hp]
    simp [String.append_assoc]
  · intro v
    by_cases hv : pyTruthy v
    · rw [if_pos hv, csvCells]
      exact List.count_filter hv
    · rw [if_neg hv]
      refine List.count_eq_zero.mpr ?_
      intro hmem
      exact hv (List.mem_filter.mp hmem).2

/-- C8 (witness): the amended theorem applied to the concrete database
whose single row is `[0, "X"]`. -/
theorem claim_C8_witness :
    ([PyVal.int 0, PyVal.str "X"] ∈ exDbZeroRow.rows)
    ∧ ((∃ pre post, CSV_str exDbZeroRow false
          = pre ++ csvLine false [PyVal.int 0, PyVal.str "X"] ++ post)
       ∧ csvLine false [PyVal.int 0, PyVal.str "X"]
           = String.intercalate ","
               (([PyVal.int 0, PyVal.str "X"].filter pyTruthy).map
                 (csvRenderCell false)) ++ "\n"
       ∧ ∀ v : PyVal, (csvCells [PyVal.int 0, PyVal.str "X"]).count v
           = if pyTruthy v then [PyVal.int 0, PyVal.str "X"].count v else 0) :=
  ⟨by decide, claim_C8_thm exDbZeroRow false [PyVal.int 0, PyVal.str "X"] (by decide)⟩

/-- C2 (failing input): the whitespace-collapsing pass `\s+ → " "` is not
literal-aware — for a state named `"AB  CD"` the minified SQL export
rewrites the run of spaces *inside* the quoted string literal, so the
minified and non-minified scripts differ in a quoted literal's contents,
not only in whitespace outside literals. -/
theorem claim_C2_thm :
    sqlLiterals (SQL_str exDbDoubleSpace true "standard") = ["AB CD"]
    ∧ sqlLiterals (SQL_str exDbDoubleSpace false "standard") = ["AB  CD"]
    ∧ sqlLiterals (SQL_str exDbDoubleSpace true "standard")
        ≠ sqlLiterals (SQL_str exDbDoubleSpace false "standard") := by
  refine ⟨by decide, by decide, by decide⟩

/-- C5 (failing input): minified and non-minified renders of the same
data are not semantically equal for the relational exporter — a reader of
the minified script for a state named `"RIO  BRANCO"` recovers the string
value `"RIO BRANCO"`, while the non-minified script yields
`"RIO  BRANCO"`. -/
theorem claim_C5_thm :
    sqlLiterals (SQL_str exDbRio true "standard") = ["RIO BRANCO"]
    ∧ sqlLiterals (SQL_str exDbRio false "standard") = ["RIO  BRANCO"]
    ∧ sqlLiterals (SQL_str exDbRio true "standard")
        ≠ sqlLiterals (SQL_str exDbRio false "standard") := by
  refine ⟨by decide, by decide, by decide⟩

/-- The index block a table contributes (empty for tables without an
`_indexes` entry). -/
def sqlIdxBlock (minified : Bool) (t : String) : String :=
  match SQL_indexesFor t with
  | Option.some idxs => (if minified then "" else sqlIdxComment t) ++ SQL_indexesJoin idxs
  | Option.none => ""

/-- Non-minified lazy-dialect segment of one non-empty table: banner,
`CREATE TABLE` without inline constraints, banner, `INSERT` lines, banner,
`ALTER TABLE` constraint block, index block — in that order. -/
theorem sqlSeg_lazy (db : Database) (esc t : String) (h : db.dataOf t ≠ []) :
    sqlSeg db false true esc t
      = sqlStructComment t ++ SQL_table t (SQL_tableDefs t) ++ sqlDataComment t
        ++ sqlInsertsBlock esc db t ++ sqlConsComment t
        ++ SQL_constraintsJoin (SQL_constraintsFor true t) ++ sqlIdxBlock false t := by
  rw [sqlSeg, if_neg h]
  simp [sqlIdxBlock, String.append_assoc]

/-- Non-minified sqlite-dialect segment of one non-empty table: the
constraints sit inside the `CREATE TABLE` argument list and no separate
constraint block is emitted. -/
theorem sqlSeg_inline (db : Database) (esc t : String) (h : db.dataOf t ≠ []) :
    sqlSeg db false false esc t
      = sqlStructComment t ++ SQL_table t (SQL_tableDefs t ++ SQL_constraintsFor false t)
        ++ sqlDataComment t ++ sqlInsertsBlock esc db t ++ sqlIdxBlock false t := by
  rw [sqlSeg, if_neg h]
  simp [sqlIdxBlock, String.append_assoc]

/-- Any table's segment can be isolated inside the accumulated script. -/
theorem sqlBody_pick (db : Database) (m lazy : Bool) (esc t : String)
    (h1 : t ∈ dbTables) :
    ∃ pre post, sqlBody db m lazy esc = pre ++ sqlSeg db m lazy esc t ++ post :=
  strFoldl_pick (sqlSeg db m lazy esc) dbTables t h1

/-- The segments of two tables, in table order, can both be isolated
inside the accumulated script. -/
theorem sqlBody_pick2 (db : Database) (m lazy : Bool) (esc t u : String)
    (h : List.Sublist [t, u] dbTables) :
    ∃ pre mid post, sqlBody db m lazy esc
      = pre ++ sqlSeg db m lazy esc t ++ mid ++ sqlSeg db m lazy esc u ++ post :=
  strFoldl_pick2 (sqlSeg db m lazy esc) dbTables t u h

set_option maxRecDepth 40000 in
/-- C3 (counterexample): constraints are not emitted after all tables'
statements — with `uf` and `mesorregiao` both populated, the standard
(lazy) script places `ALTER TABLE uf` before `CREATE TABLE mesorregiao`. -/
theorem claim_C3_cex :
    exDbTwoTables.dataOf "uf" ≠ []
    ∧ exDbTwoTables.dataOf "mesorregiao" ≠ []
    ∧ firstBefore (SQL_str exDbTwoTables false "standard")
        "ALTER TABLE uf" "CREATE TABLE mesorregiao" = true := by
  refine ⟨by decide, by decide, by decide⟩

/-- C3 (amended): in the default (standard, lazy) dialect, each table's
primary- and foreign-key constraints are emitted as separate
`ALTER TABLE ADD CONSTRAINT` statements positioned after that table's own
`CREATE TABLE` statement and all of that table's `INSERT` statements, and
before the `CREATE TABLE` and `INSERT` statements of every subsequent
non-empty table; in the sqlite dialect, each table's constraints are
instead declared inline inside its `CREATE TABLE` statement and no
`ALTER TABLE` block is emitted. -/
theorem claim_C3_thm (db : Database) (t : String) (h1 : t ∈ dbTables)
    (h2 : db.dataOf t ≠ []) :
    (∃ p1 p2 p3 p4, sqlBody db false true (SQL_escapeChar "standard")
        = p1 ++ SQL_table t (SQL_tableDefs t) ++ p2
            ++ sqlInsertsBlock (SQL_escapeChar "standard") db t ++ p3
            ++ SQL_constraintsJoin (SQL_constraintsFor true t) ++ p4)
    ∧ (∀ u : String, List.Sublist [t, u] dbTables → db.dataOf u ≠ [] →
        ∃ p1 p2 p3 q1 q2 q3, sqlBody db false true (SQL_escapeChar "standard")
          = p1 ++ SQL_table t (SQL_tableDefs t) ++ p2
              ++ sqlInsertsBlock (SQL_escapeChar "standard") db t ++ p3
              ++ SQL_constraintsJoin (SQL_constraintsFor true t)
              ++ q1 ++ SQL_table u (SQL_tableDefs u) ++ q2
              ++ sqlInsertsBlock (SQL_escapeChar "standard") db u ++ q3)
    ∧ (∀ c ∈ SQL_constraintsFor true t,
        ("ALTER TABLE ").data.isPrefixOf c.data = true)
    ∧ (∃ q1 q2, sqlBody db false false (SQL_escapeChar "sqlite")
        = q1 ++ SQL_table t (SQL_tableDefs t ++ SQL_constraintsFor false t) ++ q2)
    ∧ (∀ c ∈ SQL_constraintsFor false t,
        ("  CONSTRAINT ").data.isPrefixOf c.data = true)
    ∧ SQL_str db false "standard"
        = pyStripStr (sqlBody db false true (SQL_escapeChar "standard"))
    ∧ SQL_str db false "sqlite"
        = pyStripStr (sqlBody db false false (SQL_escapeChar "sqlite")) := by
  refine ⟨?_, ?_, ?_, ?_, ?_, rfl, rfl⟩
  · obtain ⟨pre, post, hp⟩ :=
      sqlBody_pick db false true (SQL_escapeChar "standard") t h1
    rw [sqlSeg_lazy db (SQL_escapeChar "standard") t h2] at hp
    refine ⟨pre ++ sqlStructComment t, sqlDataComment t, sqlConsComment t,
      sqlIdxBlock false t ++ post, ?_⟩
    rw [hp]
    simp [String.append_assoc]
  · intro u hsub hu
    obtain ⟨pre, mid, post, hp⟩ :=
      sqlBody_pick2 db false true (SQL_escapeChar "standard") t u hsub
    rw [sqlSeg_lazy db (SQL_escapeChar "standard") t h2,
      sqlSeg_lazy db (SQL_escapeChar "standard") u hu] at hp
    refine ⟨pre ++ sqlStructComment t, sqlDataComment t, sqlConsComment t,
      sqlIdxBlock false t ++ mid ++ sqlStructComment u, sqlDataComment u,
      sqlConsComment u ++ SQL_constraintsJoin (SQL_constraintsFor true u)
        ++ sqlIdxBlock false u ++ post, ?_⟩
    rw [hp]
    simp [String.append_assoc]
  · simp only [dbTables, List.mem_cons, List.not_mem_nil, or_false] at h1
    rcases h1 with rfl | rfl | rfl | rfl | rfl | rfl <;> decide
  · obtain ⟨pre, post, hp⟩ :=
      sqlBody_pick db false false (SQL_escapeChar "sqlite") t h1
    rw [sqlSeg_inline db (SQL_escapeChar "sqlite") t h2] at hp
    refine ⟨pre ++ sqlStructComment t,
      sqlDataComment t ++ sqlInsertsBlock (SQL_escapeChar "sqlite") db t
        ++ sqlIdxBlock false t ++ post, ?_⟩
    rw [hp]
    simp [String.append_assoc]
  · simp only [dbTables, List.mem_cons, List.not_mem_nil, or_false] at h1
    rcases h1 with rfl | rfl | rfl | rfl | rfl | rfl <;> decide

/-- C3 (witness): the amended theorem applied to the two-table database
at table `uf`, whose subsequent table `mesorregiao` is also non-empty. -/
theorem claim_C3_witness :
    ("uf" ∈ dbTables) ∧ (exDbTwoTables.dataOf "uf" ≠ [])
    ∧ List.Sublist ["uf", "mesorregiao"] dbTables
    ∧ exDbTwoTables.dataOf "mesorregiao" ≠ []
    ∧ ((∃ p1 p2 p3 p4, sqlBody exDbTwoTables false true (SQL_escapeChar "standard")
          = p1 ++ SQL_table "uf" (SQL_tableDefs "uf") ++ p2
              ++ sqlInsertsBlock (SQL_escapeChar "standard") exDbTwoTables "uf" ++ p3
              ++ SQL_constraintsJoin (SQL_constraintsFor true "uf") ++ p4)
       ∧ (∀ u : String, List.Sublist ["uf", u] dbTables →
            exDbTwoTables.dataOf u ≠ [] →
            ∃ p1 p2 p3 q1 q2 q3,
              sqlBody exDbTwoTables false true (SQL_escapeChar "standard")
                = p1 ++ SQL_table "uf" (SQL_tableDefs "uf") ++ p2
                    ++ sqlInsertsBlock (SQL_escapeChar "standard") exDbTwoTables "uf"
                    ++ p3 ++ SQL_constraintsJoin (SQL_constraintsFor true "uf")
                    ++ q1 ++ SQL_table u (SQL_tableDefs u) ++ q2
                    ++ sqlInsertsBlock (SQL_escapeChar "standard") exDbTwoTables u
                    ++ q3)
       ∧ (∀ c ∈ SQL_constraintsFor true "uf",
           ("ALTER TABLE ").data.isPrefixOf c.data = true)
       ∧ (∃ q1 q2, sqlBody exDbTwoTables false false (SQL_escapeChar "sqlite")
           = q1 ++ SQL_table "uf" (SQL_tableDefs "uf" ++ SQL_constraintsFor false "uf")
               ++ q2)
       ∧ (∀ c ∈ SQL_constraintsFor false "uf",
           ("  CONSTRAINT ").data.isPrefixOf c.data = true)
       ∧ SQL_str exDbTwoTables false "standard"
           = pyStripStr (sqlBody exDbTwoTables false true (SQL_escapeChar "standard"))
       ∧ SQL_str exDbTwoTables false "sqlite"
           = pyStripStr (sqlBody exDbTwoTables false false (SQL_escapeChar "sqlite"))) :=
  ⟨by decide, by decide, by decide, by decide,
    claim_C3_thm exDbTwoTables "uf" (by decide) (by decide)⟩
